import Mathlib

/-!
Shallow embedding of the core of the script-copilot extension: the
test-execution and result-aggregation pipeline (runTests, parseTrx,
parseDuration, parseResultsDirectory, findLatestTrx) and the remote-call
client (Semaphore, LlmClient.generate, callWithRetry, call).  Definitions
are translated from the TypeScript source; fields that exist only for
specification purposes are marked as ghost fields.
-/

/-- JavaScript number restricted to the values reachable in the duration
arithmetic of the source: a natural number or NaN. -/
inductive JsNum where
  | nan : JsNum
  | num : Nat → JsNum
deriving DecidableEq, Repr

/-- JavaScript truthiness of a number: 0 and NaN are falsy. -/
def jsTruthy : JsNum → Bool
  | JsNum.nan => false
  | JsNum.num n => n != 0

/-- Numeric value of a digit list (most significant digit first). -/
def digitsToNat (cs : List Char) : Nat :=
  cs.foldl (fun a c => a * 10 + (c.toNat - 48)) 0

/-- JS Number() on the strings reachable from the duration code: the empty
string converts to 0, an all-digit string to its value, and anything else
(in particular the captured groups, which always start with a backslash)
to NaN. -/
def jsNumberOfDigits (s : String) : JsNum :=
  let cs := s.toList
  if cs.isEmpty then JsNum.num 0
  else if cs.all (fun c => c.isDigit) then JsNum.num (digitsToNat cs)
  else JsNum.nan

/-- Addition with NaN propagation. -/
def jsAdd : JsNum → JsNum → JsNum
  | JsNum.num a, JsNum.num b => JsNum.num (a + b)
  | _, _ => JsNum.nan

/-- Multiplication by a constant with NaN propagation. -/
def jsMulConst (k : Nat) : JsNum → JsNum
  | JsNum.num a => JsNum.num (k * a)
  | JsNum.nan => JsNum.nan

/-- The regex fragment written as a double backslash followed by d+ in the
source (a JavaScript regex literal), which matches a literal backslash
character followed by one or more letter d; the capture includes the
backslash.  Returns the captured characters and the rest of the input. -/
def lexBslashDs : List Char → Option (List Char × List Char)
  | '\\' :: rest =>
    let ds := rest.takeWhile (fun c => c == 'd')
    if ds.isEmpty then none
    else some ('\\' :: ds, rest.drop ds.length)
  | _ => none

/-- Matches a single colon. -/
def lexColon : List Char → Option (List Char)
  | ':' :: r => some r
  | _ => none

/-- The JS regex metacharacter dot matches any character except a line
terminator. -/
def jsDotMatches (c : Char) : Bool :=
  !(c.toNat == 10 || c.toNat == 13 || c.toNat == 8232 || c.toNat == 8233)

/-- The optional tail group of the duration regex: after the double
backslash consumed as a literal backslash, the dot is a bare metacharacter,
so the group is backslash, any character, then the ms capture (again a
literal backslash and d+). -/
def lexMsOpt : List Char → Option (List Char)
  | '\\' :: c :: rest =>
    if jsDotMatches c then
      match lexBslashDs rest with
      | some (cap, _) => some cap
      | none => none
    else none
  | _ => none

/-- One attempt of the source duration regex at a fixed position, yielding
the four named captures h, m, s and the optional ms. -/
def matchDurationAt (cs : List Char) : Option (String × String × String × Option String) := do
  let (h, r1) ← lexBslashDs cs
  let r2 ← lexColon r1
  let (m, r3) ← lexBslashDs r2
  let r4 ← lexColon r3
  let (s, r5) ← lexBslashDs r4
  pure (String.mk h, String.mk m, String.mk s, (lexMsOpt r5).map String.mk)

/-- Leftmost match of the duration regex over the input, as performed by
String.prototype.match. -/
def findDurationMatch : List Char → Option (String × String × String × Option String)
  | [] => none
  | c :: rest =>
    match matchDurationAt (c :: rest) with
    | some g => some g
    | none => findDurationMatch rest

/-- parseDuration from the source: 0 when the regex does not match,
otherwise hours, minutes, seconds and the first three characters of the
ms capture are converted with Number() and combined into milliseconds. -/
def parseDuration (duration : String) : JsNum :=
  match findDurationMatch duration.toList with
  | none => JsNum.num 0
  | some (h, m, s, ms) =>
    let hours := jsNumberOfDigits h
    let minutes := jsNumberOfDigits m
    let seconds := jsNumberOfDigits s
    let milliseconds := jsNumberOfDigits (String.mk ((ms.getD "0").toList.take 3))
    jsAdd (jsAdd (jsAdd (jsMulConst 3600000 hours) (jsMulConst 60000 minutes))
      (jsMulConst 1000 seconds)) milliseconds

/-- One failing or erroring test, as produced by parseTrx. -/
structure TestFailure where
  testName : String
  message : Option String
  stackTrace : Option String
deriving DecidableEq, Repr

/-- Aggregate counts of one test run. -/
structure TestSummary where
  passed : Nat
  failed : Nat
  skipped : Nat
  total : Nat
  durationMs : Nat
deriving DecidableEq, Repr

/-- Top-level outcome of a test run. -/
structure TestRunResult where
  success : Bool
  failures : List TestFailure
  summary : TestSummary
  resultsFile : Option String
deriving DecidableEq, Repr

/-- One UnitTestResult record as it comes out of the XML decode: the
attributes outcome, testName and duration, and the nested
Output.ErrorInfo Message and StackTrace texts, each possibly absent. -/
structure TrxRecord where
  outcome : Option String
  testName : Option String
  duration : Option String
  errorMessage : Option String
  errorStackTrace : Option String
deriving DecidableEq, Repr

/-- String.prototype.toLowerCase rendered over the character list (the
strings involved are ASCII). -/
def jsToLower (s : String) : String := String.mk (s.toList.map Char.toLower)

/-- String.prototype.endsWith rendered over the character lists. -/
def strEndsWith (s tail : String) : Bool :=
  let a := s.toList
  let b := tail.toList
  decide (b.length ≤ a.length) && a.drop (a.length - b.length) == b

/-- The outcome attribute defaulted to the empty string and lowercased. -/
def recOutcome (r : TrxRecord) : String := jsToLower (r.outcome.getD "")

/-- The testName attribute defaulted to the string Unknown test. -/
def recTestName (r : TrxRecord) : String := r.testName.getD "Unknown test"

/-- The TestFailure pushed for a record that is neither passed nor
skipped. -/
def recFailure (r : TrxRecord) : TestFailure :=
  { testName := recTestName r, message := r.errorMessage, stackTrace := r.errorStackTrace }

/-- The three-way classification of an outcome. -/
inductive OutcomeClass where
  | passed : OutcomeClass
  | skipped : OutcomeClass
  | failed : OutcomeClass
deriving DecidableEq, Repr

/-- The if chain of the record loop: passed, then notexecuted or skipped,
otherwise failed (the fail-closed default for anything unrecognised). -/
def classify (r : TrxRecord) : OutcomeClass :=
  let o := recOutcome r
  if o == "passed" then OutcomeClass.passed
  else if o == "notexecuted" || o == "skipped" then OutcomeClass.skipped
  else OutcomeClass.failed

/-- Accumulator of the record loop of parseTrx. -/
structure TrxAcc where
  passed : Nat
  skipped : Nat
  durationMs : Nat
  failures : List TestFailure
deriving DecidableEq, Repr

/-- The duration contribution under the truthiness guard of the source:
NaN and 0 are falsy and are skipped, which contributes nothing, and
adding zero is the identity, so the contribution of a falsy value is 0. -/
def durContribution (d : JsNum) : Nat :=
  match d with
  | JsNum.nan => 0
  | JsNum.num n => n

/-- The for loop of parseTrx over the record list, rendered as structural
recursion: counts are additive and the failures list keeps document
order. -/
def trxLoop : List TrxRecord → TrxAcc
  | [] => { passed := 0, skipped := 0, durationMs := 0, failures := [] }
  | r :: rest =>
    let acc := trxLoop rest
    let d := durContribution (parseDuration (r.duration.getD ""))
    match classify r with
    | OutcomeClass.passed =>
      { acc with passed := acc.passed + 1, durationMs := acc.durationMs + d }
    | OutcomeClass.skipped =>
      { acc with skipped := acc.skipped + 1, durationMs := acc.durationMs + d }
    | OutcomeClass.failed =>
      { acc with failures := recFailure r :: acc.failures, durationMs := acc.durationMs + d }

/-- parseTrx after the XML decode: aggregate the records of the artifact
into a TestRunResult whose success flag is failures list empty. -/
def parseTrxRecords (trxPath : String) (records : List TrxRecord) : TestRunResult :=
  let acc := trxLoop records
  { success := acc.failures.isEmpty
    failures := acc.failures
    summary :=
      { passed := acc.passed
        failed := acc.failures.length
        skipped := acc.skipped
        total := records.length
        durationMs := acc.durationMs }
    resultsFile := some trxPath }

/-- toArray of the source: undefined and null give the empty list, an
array is kept, a single record becomes a one-element list. -/
def toArrayModel (v : Option (TrxRecord ⊕ List TrxRecord)) : List TrxRecord :=
  match v with
  | none => []
  | some (Sum.inl r) => [r]
  | some (Sum.inr rs) => rs

/-- The synthetic exit-code-only result of runTests: success is the exit
code being exactly 0, and the truthiness guard on the code (null and 0 are
falsy) fills failed and total with 1 only for a nonzero integer code. -/
def exitOnlyResult (code : Option Int) : TestRunResult :=
  let synthetic : Nat :=
    match code with
    | none => 0
    | some n => if n = 0 then 0 else 1
  { success := code == some 0
    failures := []
    summary := { passed := 0, failed := synthetic, skipped := 0, total := synthetic, durationMs := 0 }
    resultsFile := none }

/-- The close handler of runTests: parsedAttempt is none when no trx
artifact was found, an error when parseTrx threw (the message is logged
and the code falls through), and a parsed result otherwise, in which case
its success flag is overwritten by failures empty AND exit code 0 or
null; code none models a null exit code. -/
def runTestsOutcome (parsedAttempt : Option (Except String TestRunResult))
    (code : Option Int) : TestRunResult :=
  match parsedAttempt with
  | some (Except.ok parsed) =>
    { parsed with success := parsed.failures.isEmpty && (code == some 0 || code == none) }
  | some (Except.error _) => exitOnlyResult code
  | none => exitOnlyResult code

/-- Modelled from the spec: the success flag the spec defines, failures
list empty AND process exit code zero-or-unknown, for comparison with the
implementation. -/
def specSuccessFlag (failures : List TestFailure) (code : Option Int) : Bool :=
  failures.isEmpty && (code == some 0 || code == none)

/-- ASCII whitespace matched by the whitespace class of a JS regex; the
exotic Unicode space characters do not occur in the commands considered. -/
def isJsWhitespace (c : Char) : Bool :=
  c.toNat == 32 || c.toNat == 9 || c.toNat == 10 || c.toNat == 11
    || c.toNat == 12 || c.toNat == 13

/-- First alternative of the capture group of parseResultsDirectory: a
double-quoted chunk with a nonempty body; the capture includes the
quotes. -/
def lexDquoted : List Char → Option (List Char)
  | '"' :: rest =>
    let content := rest.takeWhile (fun c => c != '"')
    if content.isEmpty then none
    else
      match rest.drop content.length with
      | '"' :: _ => some ('"' :: (content ++ ['"']))
      | _ => none
  | _ => none

/-- Second alternative: a single-quoted chunk with a nonempty body. -/
def lexSquoted : List Char → Option (List Char)
  | '\'' :: rest =>
    let content := rest.takeWhile (fun c => c != '\'')
    if content.isEmpty then none
    else
      match rest.drop content.length with
      | '\'' :: _ => some ('\'' :: (content ++ ['\'']))
      | _ => none
  | _ => none

/-- Third alternative, written in the source as a character class holding
a double backslash and the letter s: in a JS character class the double
backslash is one literal backslash, so this matches one or more characters
none of which is a backslash or the letter s (not: non-whitespace). -/
def lexUnquoted (cs : List Char) : Option (List Char) :=
  let content := cs.takeWhile (fun c => c != '\\' && c != 's')
  if content.isEmpty then none else some content

/-- The capture group, alternatives tried in source order. -/
def lexGroup (cs : List Char) : Option (List Char) :=
  match lexDquoted cs with
  | some cap => some cap
  | none =>
    match lexSquoted cs with
    | some cap => some cap
    | none => lexUnquoted cs

/-- Matches a literal character list at the front of the input. -/
def dropLit : List Char → List Char → Option (List Char)
  | [], cs => some cs
  | l :: ls, c :: cs => if c == l then dropLit ls cs else none
  | _ :: _, [] => none

/-- Backtracking over the greedy one-or-more whitespace: try consuming k
whitespace characters first, then k-1, down to 1. -/
def tryWsThenGroup (cs : List Char) : Nat → Option (List Char)
  | 0 => none
  | k + 1 =>
    match lexGroup (cs.drop (k + 1)) with
    | some cap => some cap
    | none => tryWsThenGroup cs k

/-- One attempt of the results-directory regex at a fixed position. -/
def matchRdAt (cs : List Char) : Option (List Char) := do
  let afterLit ← dropLit "--results-directory".toList cs
  tryWsThenGroup afterLit (afterLit.takeWhile isJsWhitespace).length

/-- Leftmost match of the results-directory regex over the command. -/
def findRd : List Char → Option (List Char)
  | [] => none
  | c :: rest =>
    match matchRdAt (c :: rest) with
    | some cap => some cap
    | none => findRd rest

/-- The global replace of a leading and a trailing quote applied to the
captured argument. -/
def stripQuotesEnds (cs : List Char) : List Char :=
  let s1 :=
    match cs with
    | c :: r => if c == '"' || c == '\'' then r else c :: r
    | [] => []
  match s1.getLast? with
  | some c => if c == '"' || c == '\'' then s1.dropLast else s1
  | none => s1

/-- parseResultsDirectory from the source: extract the argument of
--results-directory if the regex matches, stripping surrounding quotes. -/
def parseResultsDirectory (command : String) : Option String :=
  match findRd command.toList with
  | none => none
  | some raw => some (String.mk (stripQuotesEnds raw))

/-- The results directory runTests uses: the extracted argument, or the
fixed subdirectory deepseek_test_results of the working directory
(path.join rendered as posix concatenation). -/
def resultsDirOf (command cwd : String) : String :=
  match parseResultsDirectory command with
  | some d => d
  | none => cwd ++ "/deepseek_test_results"

/-- Filesystem operations the pipeline performs; writeFile is part of the
vocabulary so that the frame property is meaningful, the embedding never
emits it. -/
inductive FsOp where
  | mkdirRecursive : String → FsOp
  | readdir : String → FsOp
  | statFile : String → FsOp
  | readFile : String → FsOp
  | writeFile : String → FsOp
deriving DecidableEq, Repr

/-- Whether an operation writes to the filesystem. -/
def FsOp.isWrite : FsOp → Bool
  | FsOp.mkdirRecursive _ => true
  | FsOp.writeFile _ => true
  | _ => false

/-- The stable descending sort by mtime followed by taking the head: the
earliest listed file among those with the greatest timestamp. -/
def pickLatest (mtime : String → Int) (dir : String) : String → List String → String
  | best, [] => best
  | best, g :: gs =>
    pickLatest mtime dir (if mtime (dir ++ "/" ++ g) > mtime (dir ++ "/" ++ best) then g else best) gs

/-- findLatestTrx: list the directory, keep the names ending in .trx
case-insensitively, stat each candidate and return the newest; a listing
failure (modelled by none) is swallowed and yields no candidate. -/
def findLatestTrxModel (resultsDir : String) (listing : Option (List String))
    (mtime : String → Int) : List FsOp × Option String :=
  match listing with
  | none => ([FsOp.readdir resultsDir], none)
  | some files =>
    match files.filter (fun f => strEndsWith (jsToLower f) ".trx") with
    | [] => ([FsOp.readdir resultsDir], none)
    | f :: rest =>
      ([FsOp.readdir resultsDir] ++
        (f :: rest).map (fun g => FsOp.statFile (resultsDir ++ "/" ++ g)),
        some (resultsDir ++ "/" ++ pickLatest mtime resultsDir f rest))

/-- The filesystem footprint of runTests: ensureDirectory (a recursive
mkdir of the results directory with errors ignored), then the locator,
then a read of the found artifact. -/
def runTestsOps (command cwd : String) (listing : Option (List String))
    (mtime : String → Int) : List FsOp :=
  let dir := resultsDirOf command cwd
  let located := findLatestTrxModel dir listing mtime
  FsOp.mkdirRecursive dir ::
    (located.1 ++
      (match located.2 with
       | some p => [FsOp.readFile p]
       | none => []))

/-- A concrete mtime assignment for witnesses. -/
def zeroMtime : String → Int := fun _ => 0

/-- The error kinds of the client, each carrying its message. -/
inductive CallError where
  | config : String → CallError
  | timeout : String → CallError
  | upstream : String → CallError
  | unexpected : String → CallError
  | other : String → CallError
deriving DecidableEq, Repr

/-- Output of one remote call. -/
structure GenerateResult where
  content : String
  raw : String
deriving DecidableEq, Repr

/-- The behaviour of one fetch: the response carried and its status; the
JSON decode and content extraction of the success path are summarised by
the extracted field, which no claim inspects. -/
structure MockResponse where
  ok : Bool
  status : Nat
  statusText : String
  extracted : String
  bodyText : String
deriving DecidableEq, Repr

/-- One attempt (the private call method): a timeout clock of timeoutMs is
started and aborts the request; if the response settles strictly before
the deadline the normal path runs (ensureSuccess, then decode), otherwise
the abort surfaces as the AbortError, remapped by the catch block to the
timeout error.  arrival none models a response that never settles. -/
def call (timeoutMs : Nat) (arrival : Option Nat) (resp : MockResponse) :
    Except CallError GenerateResult :=
  match arrival with
  | some t =>
    if t < timeoutMs then
      if resp.ok then Except.ok { content := resp.extracted, raw := resp.bodyText }
      else Except.error (CallError.upstream
        ("LLM request failed: " ++ toString resp.status ++ " " ++ resp.statusText))
    else Except.error (CallError.timeout "LLM request timed out")
  | none => Except.error (CallError.timeout "LLM request timed out")

/-- Trace of one callWithRetry run: the final outcome, the attempt numbers
issued in order (attempts are strictly sequential), the backoff waits in
ms in order, and the logged failures. -/
structure RetryTrace where
  result : Except CallError GenerateResult
  calls : List Nat
  waits : List Nat
  logs : List (Nat × CallError)

/-- The attempt budget of callWithRetry. -/
def retryAttempts : Nat := 3

/-- The retry loop of callWithRetry over its iteration space: issue
attempt a; on success stop; on failure log, rethrow when a equals the
budget, otherwise wait 500 times 2 to the a-1 ms and continue.  The empty
case is the unreachable throw after the loop. -/
def retryLoop (call1 : Nat → Except CallError GenerateResult) : List Nat → RetryTrace
  | [] =>
    { result := Except.error (CallError.unexpected "Unexpected retry failure")
      calls := [], waits := [], logs := [] }
  | a :: rest =>
    match call1 a with
    | Except.ok v => { result := Except.ok v, calls := [a], waits := [], logs := [] }
    | Except.error e =>
      if a == retryAttempts then
        { result := Except.error e, calls := [a], waits := [], logs := [(a, e)] }
      else
        let r := retryLoop call1 rest
        { result := r.result, calls := a :: r.calls
          waits := 500 * 2 ^ (a - 1) :: r.waits, logs := (a, e) :: r.logs }

/-- callWithRetry: the loop runs attempt = 1 up to the budget. -/
def callWithRetry (call1 : Nat → Except CallError GenerateResult) : RetryTrace :=
  retryLoop call1 [1, 2, 3]

/-- Events of the admission gate: an acquire by a caller, or a release. -/
inductive GateEvent where
  | acquire : Nat → GateEvent
  | release : GateEvent
deriving DecidableEq, Repr

/-- Semaphore state; counter and queue are the fields of the source class,
while active, resumed and enqueued are ghost fields recording the number
of currently admitted callers, the order waiters were resumed, and the
order they were enqueued. -/
structure GateState where
  counter : Nat
  queue : List Nat
  active : Nat
  resumed : List Nat
  enqueued : List Nat
deriving DecidableEq, Repr

/-- The Semaphore constructor: counter = max 1 count. -/
def semInit (count : Int) : GateState :=
  { counter := (max 1 count).toNat, queue := [], active := 0, resumed := [], enqueued := [] }

/-- The count the LlmClient constructor passes to the Semaphore:
maxConcurrentRequests with 0 (falsy) replaced by 1. -/
def clientCeiling (maxConcurrentRequests : Int) : Int :=
  if maxConcurrentRequests = 0 then 1 else maxConcurrentRequests

/-- acquire takes a slot when the counter is positive, otherwise joins the
back of the waiter queue; release increments the counter, then hands the
slot to the queue front if a waiter exists (shift, decrement, resume). -/
def gateStep (s : GateState) : GateEvent → GateState
  | GateEvent.acquire c =>
    if 0 < s.counter then
      { s with counter := s.counter - 1, active := s.active + 1 }
    else
      { s with queue := s.queue ++ [c], enqueued := s.enqueued ++ [c] }
  | GateEvent.release =>
    match s.queue with
    | [] => { s with counter := s.counter + 1, active := s.active - 1 }
    | c :: rest => { s with queue := rest, active := s.active - 1 + 1, resumed := s.resumed ++ [c] }

/-- Run a list of gate events. -/
def gateRun (s : GateState) : List GateEvent → GateState
  | [] => s
  | e :: evs => gateRun (gateStep s e) evs

/-- Well-formed event traces: a release is only issued by a currently
admitted caller, the pairing generate guarantees through try/finally. -/
def wfEvents (s : GateState) : List GateEvent → Bool
  | [] => true
  | GateEvent.acquire c :: evs => wfEvents (gateStep s (GateEvent.acquire c)) evs
  | GateEvent.release :: evs =>
    decide (0 < s.active) && wfEvents (gateStep s GateEvent.release) evs

/-- The gate invariant: slots plus admitted callers equal the capacity,
resumptions follow enqueue order, and while anyone waits the counter is
exhausted (so nobody can be admitted ahead of the queue). -/
def gateInv (cap : Nat) (s : GateState) : Prop :=
  s.counter + s.active = cap
    ∧ s.enqueued = s.resumed ++ s.queue
    ∧ (s.queue ≠ [] → s.counter = 0)

/-- A demonstration trace: three acquires against capacity one, then two
releases. -/
def gateDemoEvents : List GateEvent :=
  [GateEvent.acquire 10, GateEvent.acquire 11, GateEvent.acquire 12,
   GateEvent.release, GateEvent.release]

/-- Gate operations one generate call performs, in order. -/
inductive GateOp where
  | acq : GateOp
  | rel : GateOp
deriving DecidableEq, Repr

/-- Result and gate footprint of one generate call. -/
structure GenerateOutcome where
  result : Except CallError GenerateResult
  gateOps : List GateOp

/-- LlmClient.generate: the two configuration guards run before any gate
activity; otherwise the retrying call runs inside a scoped acquire/release
(try/finally), so the release happens whatever the body outcome; body
stands for the outcome of callWithRetry, an error value covering both
thrown failures and cancellation. -/
def generate (apiUrl apiKey : String) (body : Except CallError GenerateResult) :
    GenerateOutcome :=
  if apiUrl = "" then
    { result := Except.error (CallError.config
        "API URL is not configured (deepseekCSharp.assistant.apiUrl).")
      gateOps := [] }
  else if apiKey = "" then
    { result := Except.error (CallError.config
        "API key is not configured (deepseekCSharp.assistant.apiKey).")
      gateOps := [] }
  else
    { result := body, gateOps := [GateOp.acq, GateOp.rel] }

/-- Replay the gate footprint of a call against a gate state. -/
def applyGateOps (s : GateState) (caller : Nat) : List GateOp → GateState
  | [] => s
  | GateOp.acq :: ops => applyGateOps (gateStep s (GateEvent.acquire caller)) caller ops
  | GateOp.rel :: ops => applyGateOps (gateStep s GateEvent.release) caller ops

/-- A remote that fails twice with an upstream error, then succeeds. -/
def callScript : Nat → Except CallError GenerateResult :=
  fun n =>
    if n < 3 then Except.error (CallError.upstream "LLM request failed: 500 Internal Server Error")
    else Except.ok { content := "class Foo", raw := "body" }

/-- A successful concrete response. -/
def respOk : MockResponse :=
  { ok := true, status := 200, statusText := "OK", extracted := "class Foo", bodyText := "body" }

/-- The two-record example artifact of the spec. -/
def trxExampleRecords : List TrxRecord :=
  [{ outcome := some "Passed", testName := none, duration := some "00:00:01.500",
     errorMessage := none, errorStackTrace := none },
   { outcome := some "Failed", testName := some "Foo.Bar", duration := none,
     errorMessage := some "boom", errorStackTrace := none }]

/-- A parsed artifact reporting all green. -/
def allGreenParsed : TestRunResult :=
  { success := true, failures := []
    summary := { passed := 2, failed := 0, skipped := 0, total := 2, durationMs := 0 }
    resultsFile := some "results.trx" }

/-- A record with the unrecognised outcome Inconclusive. -/
def inconclusiveRecord : TrxRecord :=
  { outcome := some "Inconclusive", testName := some "T", duration := none,
    errorMessage := none, errorStackTrace := none }

/-- C1 counterexample: with no artifact and an unknown (null) exit code
the exit-only path reports success = false although the failures list is
empty and the exit code is zero-or-unknown, so the claimed biconditional
fails on the exit-only path. -/
theorem exitOnly_unknown_code_not_success :
    (runTestsOutcome none none).success = false
    ∧ specSuccessFlag (runTestsOutcome none none).failures none = true := by
  constructor <;> rfl

/-- C1 (amended): on the parsed path the success flag is exactly the
spec's failures-empty AND exit-code-zero-or-null, so a clean parse with a
nonzero exit code is reported failed; on both exit-only paths (no
artifact, or parse error) the flag is exit code equal to 0, so an unknown
exit code yields false there. -/
theorem success_flag_reconciliation (p : TestRunResult) (e : String) (code : Option Int) :
    (runTestsOutcome (some (Except.ok p)) code).success = specSuccessFlag p.failures code
    ∧ (runTestsOutcome none code).success = (code == some 0)
    ∧ (runTestsOutcome (some (Except.error e)) code).success = (code == some 0)
    ∧ (runTestsOutcome (some (Except.ok allGreenParsed)) (some 1)).success = false := by
  refine ⟨rfl, rfl, rfl, rfl⟩

/-- C2: on the exit-only paths (no artifact found, or parseTrx raised) the
result is synthesised purely from the exit code: 0 gives success with the
all-zero summary and no failures; a nonzero integer code gives failure
with failed = 1, total = 1 and no TestFailure detail. -/
theorem exit_code_synthesis (pa : Option (Except String TestRunResult)) (n : Int)
    (hpa : pa = none ∨ ∃ e, pa = some (Except.error e)) (hn : n ≠ 0) :
    runTestsOutcome pa (some 0) =
      { success := true, failures := []
        summary := { passed := 0, failed := 0, skipped := 0, total := 0, durationMs := 0 }
        resultsFile := none }
    ∧ runTestsOutcome pa (some n) =
      { success := false, failures := []
        summary := { passed := 0, failed := 1, skipped := 0, total := 1, durationMs := 0 }
        resultsFile := none } := by
  have h0 : exitOnlyResult (some 0) =
      { success := true, failures := []
        summary := { passed := 0, failed := 0, skipped := 0, total := 0, durationMs := 0 }
        resultsFile := none } := rfl
  have h1 : exitOnlyResult (some n) =
      { success := false, failures := []
        summary := { passed := 0, failed := 1, skipped := 0, total := 1, durationMs := 0 }
        resultsFile := none } := by
    simp [exitOnlyResult, hn]
  rcases hpa with h | ⟨e, h⟩ <;> subst h <;> exact ⟨h0, h1⟩

/-- C2 witness at the concrete exit-only input with exit code 1. -/
theorem exit_code_synthesis_witness :
    runTestsOutcome none (some 1) =
      { success := false, failures := []
        summary := { passed := 0, failed := 1, skipped := 0, total := 1, durationMs := 0 }
        resultsFile := none } :=
  (exit_code_synthesis none 1 (Or.inl rfl) (by decide)).2

/-- C3 evaluated at the failing input: the duration regex of the source is
double-escaped, so it only matches strings containing literal backslash
characters and can never match the clock format its own comment documents;
a record with duration 00:00:01.500 therefore contributes 0 ms, and the
two-record example artifact totals durationMs = 0 instead of 1500. -/
theorem duration_regex_failing_input_eval :
    parseDuration "00:00:01.500" = JsNum.num 0
    ∧ (parseTrxRecords "results.trx" trxExampleRecords).summary.durationMs = 0 := by
  constructor <;> rfl

/-- The record loop computes its counters as the sizes of the
classification classes and collects the failed records, in document
order. -/
theorem trxLoop_classified (records : List TrxRecord) :
    (trxLoop records).passed
        = (records.filter (fun r => classify r == OutcomeClass.passed)).length
    ∧ (trxLoop records).skipped
        = (records.filter (fun r => classify r == OutcomeClass.skipped)).length
    ∧ (trxLoop records).failures
        = (records.filter (fun r => classify r == OutcomeClass.failed)).map recFailure := by
  induction records with
  | nil => exact ⟨rfl, rfl, rfl⟩
  | cons r rest ih =>
    obtain ⟨ih1, ih2, ih3⟩ := ih
    cases hc : classify r <;>
      simp [trxLoop, hc, List.filter_cons, ih1, ih2, ih3]

/-- Every record lands in exactly one classification class, so the class
sizes sum to the number of records. -/
theorem classify_filter_sum (records : List TrxRecord) :
    (records.filter (fun r => classify r == OutcomeClass.passed)).length
    + (records.filter (fun r => classify r == OutcomeClass.skipped)).length
    + (records.filter (fun r => classify r == OutcomeClass.failed)).length
    = records.length := by
  induction records with
  | nil => rfl
  | cons r rest ih =>
    cases hc : classify r <;> simp [List.filter_cons, hc] <;> omega

/-- C4: the record loop classifies every record through the if chain into
exactly one of passed, skipped or failed, the classification is a function
of the lowercased outcome with failed as the default for anything
unrecognised, the counters are the class sizes and sum to the record
count (no record is dropped), the failures list keeps document order, and
an Inconclusive record is counted and collected as a failure. -/
theorem outcome_classification_fail_closed (file : String) (records : List TrxRecord) :
    (parseTrxRecords file records).summary.total = records.length
    ∧ (parseTrxRecords file records).summary.passed
        = (records.filter (fun r => classify r == OutcomeClass.passed)).length
    ∧ (parseTrxRecords file records).summary.skipped
        = (records.filter (fun r => classify r == OutcomeClass.skipped)).length
    ∧ (parseTrxRecords file records).failures
        = (records.filter (fun r => classify r == OutcomeClass.failed)).map recFailure
    ∧ (parseTrxRecords file records).summary.failed
        = (parseTrxRecords file records).failures.length
    ∧ (parseTrxRecords file records).summary.passed
        + (parseTrxRecords file records).summary.skipped
        + (parseTrxRecords file records).summary.failed
        = (parseTrxRecords file records).summary.total
    ∧ (∀ r : TrxRecord, classify r = OutcomeClass.passed ∨ classify r = OutcomeClass.skipped
        ∨ classify r = OutcomeClass.failed)
    ∧ (∀ r₁ r₂ : TrxRecord, recOutcome r₁ = recOutcome r₂ → classify r₁ = classify r₂)
    ∧ (∀ r : TrxRecord, recOutcome r ≠ "passed" → recOutcome r ≠ "notexecuted" →
        recOutcome r ≠ "skipped" → classify r = OutcomeClass.failed)
    ∧ classify (TrxRecord.mk (some "PASSED") none none none none) = OutcomeClass.passed
    ∧ (parseTrxRecords file [inconclusiveRecord]).summary.failed = 1
    ∧ (parseTrxRecords file [inconclusiveRecord]).failures
        = [{ testName := "T", message := none, stackTrace := none }] := by
  obtain ⟨h1, h2, h3⟩ := trxLoop_classified records
  refine ⟨rfl, h1, h2, h3, rfl, ?_, ?_, ?_, ?_, ?_, ?_, ?_⟩
  · show (trxLoop records).passed + (trxLoop records).skipped
        + (trxLoop records).failures.length = records.length
    rw [h1, h2, h3, List.length_map]
    exact classify_filter_sum records
  · intro r
    cases hc : classify r
    · exact Or.inl rfl
    · exact Or.inr (Or.inl rfl)
    · exact Or.inr (Or.inr rfl)
  · intro r₁ r₂ h
    simp only [classify, h]
  · intro r hp hn hs
    have hp' : (recOutcome r == "passed") = false := by simp [hp]
    have hn' : (recOutcome r == "notexecuted") = false := by simp [hn]
    have hs' : (recOutcome r == "skipped") = false := by simp [hs]
    simp [classify, hp', hn', hs']
  · rfl
  · rfl
  · rfl

/-- C4 witness: the fail-closed default and the counting applied at the
concrete Inconclusive record. -/
theorem outcome_classification_fail_closed_witness :
    classify inconclusiveRecord = OutcomeClass.failed
    ∧ (parseTrxRecords "w.trx" [inconclusiveRecord]).summary.failed = 1 :=
  ⟨(outcome_classification_fail_closed "w.trx" []).2.2.2.2.2.2.2.2.1 inconclusiveRecord
      (by decide) (by decide) (by decide),
   (outcome_classification_fail_closed "w.trx" []).2.2.2.2.2.2.2.2.2.2.1⟩

/-- C5: a generate call issues at most 3 attempts, strictly sequentially
(the trace records them in order); when the first two attempts fail and
the third succeeds, the successful result is returned after waits of
exactly 500 then 1000 ms with the two failures logged and no fourth
attempt; when all three fail, the last error is propagated after the same
two waits. -/
theorem retry_at_most_three_attempts (call1 : Nat → Except CallError GenerateResult) :
    (callWithRetry call1).calls.length ≤ 3
    ∧ (∀ e1 e2 v, call1 1 = Except.error e1 → call1 2 = Except.error e2 →
        call1 3 = Except.ok v →
        callWithRetry call1 =
          { result := Except.ok v, calls := [1, 2, 3], waits := [500, 1000]
            logs := [(1, e1), (2, e2)] })
    ∧ (∀ e1 e2 e3, call1 1 = Except.error e1 → call1 2 = Except.error e2 →
        call1 3 = Except.error e3 →
        callWithRetry call1 =
          { result := Except.error e3, calls := [1, 2, 3], waits := [500, 1000]
            logs := [(1, e1), (2, e2), (3, e3)] }) := by
  refine ⟨?_, ?_, ?_⟩
  · cases h1 : call1 1 <;> cases h2 : call1 2 <;> cases h3 : call1 3 <;>
      simp [callWithRetry, retryLoop, retryAttempts, h1, h2, h3]
  · intro e1 e2 v h1 h2 h3
    simp [callWithRetry, retryLoop, retryAttempts, h1, h2, h3]
  · intro e1 e2 e3 h1 h2 h3
    simp [callWithRetry, retryLoop, retryAttempts, h1, h2, h3]

/-- C5 witness: the remote failing twice then succeeding returns the
successful result on attempt 3 with backoffs 500 and 1000 ms. -/
theorem retry_at_most_three_attempts_witness :
    callWithRetry callScript =
      { result := Except.ok { content := "class Foo", raw := "body" }
        calls := [1, 2, 3], waits := [500, 1000]
        logs := [(1, CallError.upstream "LLM request failed: 500 Internal Server Error"),
                 (2, CallError.upstream "LLM request failed: 500 Internal Server Error")] } :=
  (retry_at_most_three_attempts callScript).2.1
    (CallError.upstream "LLM request failed: 500 Internal Server Error")
    (CallError.upstream "LLM request failed: 500 Internal Server Error")
    { content := "class Foo", raw := "body" } rfl rfl rfl

/-- C8 counterexample: the timeout path produces the message LLM request
timed out, which differs from the message the claim states. -/
theorem timeout_message_mismatch :
    call 30000 none respOk = Except.error (CallError.timeout "LLM request timed out")
    ∧ "LLM request timed out" ≠ "request timed out" := by
  exact ⟨rfl, by decide⟩

/-- C8 (amended): whenever the response does not settle strictly before
the configured timeout (including never settling), the attempt is aborted
and fails with the timeout error whose message is LLM request timed out;
call is a total function of the arrival time, so in the model the attempt
never hangs past the deadline. -/
theorem timeout_error_on_deadline (timeoutMs : Nat) (arrival : Option Nat)
    (resp : MockResponse) (h : ∀ t, arrival = some t → timeoutMs ≤ t) :
    call timeoutMs arrival resp = Except.error (CallError.timeout "LLM request timed out") := by
  cases arrival with
  | none => rfl
  | some t =>
    have ht := h t rfl
    simp [call, Nat.not_lt.mpr ht]

/-- C8 witness: a response arriving at 7 ms against a 5 ms budget fails
with the timeout error. -/
theorem timeout_error_on_deadline_witness :
    call 5 (some 7) respOk = Except.error (CallError.timeout "LLM request timed out") :=
  timeout_error_on_deadline 5 (some 7) respOk (by intro t ht; cases ht; decide)

/-- One well-formed gate step preserves the gate invariant. -/
theorem gateInv_step (cap : Nat) (s : GateState) (e : GateEvent)
    (hinv : gateInv cap s) (hwf : e = GateEvent.release → 0 < s.active) :
    gateInv cap (gateStep s e) := by
  obtain ⟨h1, h2, h3⟩ := hinv
  cases e with
  | acquire c =>
    by_cases hc : 0 < s.counter
    · have hq : s.queue = [] := by
        by_contra hne
        exact absurd (h3 hne) (by omega)
      refine ⟨?_, ?_, ?_⟩
      · simp only [gateStep, if_pos hc]
        omega
      · simpa only [gateStep, if_pos hc] using h2
      · simp only [gateStep, if_pos hc, hq]
        intro hfalse
        exact absurd rfl hfalse
    · have hc0 : s.counter = 0 := by omega
      refine ⟨?_, ?_, ?_⟩
      · simpa only [gateStep, if_neg hc] using h1
      · simp only [gateStep, if_neg hc]
        rw [h2, List.append_assoc]
      · simp only [gateStep, if_neg hc]
        intro _
        exact hc0
  | release =>
    have ha : 0 < s.active := hwf rfl
    cases hq : s.queue with
    | nil =>
      refine ⟨?_, ?_, ?_⟩
      · simp only [gateStep, hq]
        omega
      · simp only [gateStep, hq]
        rw [h2, hq]
      · simp only [gateStep, hq]
        intro hfalse
        exact absurd rfl hfalse
    | cons c rest =>
      refine ⟨?_, ?_, ?_⟩
      · simp only [gateStep, hq]
        omega
      · simp only [gateStep, hq]
        rw [h2, hq, List.append_assoc]
        rfl
      · simp only [gateStep, hq]
        intro hne
        exact h3 (by rw [hq]; exact List.cons_ne_nil c rest)

/-- Running a well-formed trace preserves the gate invariant. -/
theorem gateInv_run (cap : Nat) (evs : List GateEvent) :
    ∀ s : GateState, gateInv cap s → wfEvents s evs = true → gateInv cap (gateRun s evs) := by
  induction evs with
  | nil => intro s hs _; exact hs
  | cons e rest ih =>
    intro s hs hwf
    cases e with
    | acquire c =>
      exact ih _ (gateInv_step cap s _ hs (fun h => nomatch h)) hwf
    | release =>
      rw [wfEvents, Bool.and_eq_true] at hwf
      obtain ⟨ha, hrest⟩ := hwf
      exact ih _ (gateInv_step cap s _ hs (fun _ => of_decide_eq_true ha)) hrest

/-- C6: against a gate built from any configured ceiling, every
well-formed trace keeps the number of admitted callers at or below the
initial counter, which is at least 1 and equals the configured value
whenever that value is at least 1; resumptions follow enqueue order
exactly (the enqueued order is the resumed order followed by those still
waiting), and while anyone waits the counter is 0, so no later acquire is
admitted ahead of a waiting caller. -/
theorem admission_gate_bound_and_fifo (configured : Int) (evs : List GateEvent)
    (hwf : wfEvents (semInit (clientCeiling configured)) evs = true) :
    (gateRun (semInit (clientCeiling configured)) evs).active
        ≤ (semInit (clientCeiling configured)).counter
    ∧ 1 ≤ (semInit (clientCeiling configured)).counter
    ∧ (1 ≤ configured → (semInit (clientCeiling configured)).counter = configured.toNat)
    ∧ (gateRun (semInit (clientCeiling configured)) evs).enqueued
        = (gateRun (semInit (clientCeiling configured)) evs).resumed
          ++ (gateRun (semInit (clientCeiling configured)) evs).queue
    ∧ ((gateRun (semInit (clientCeiling configured)) evs).queue ≠ []
        → (gateRun (semInit (clientCeiling configured)) evs).counter = 0) := by
  have hinv0 : gateInv (semInit (clientCeiling configured)).counter
      (semInit (clientCeiling configured)) :=
    ⟨rfl, rfl, fun h => absurd rfl h⟩
  obtain ⟨h1, h2, h3⟩ :=
    gateInv_run (semInit (clientCeiling configured)).counter evs
      (semInit (clientCeiling configured)) hinv0 hwf
  refine ⟨by omega, ?_, ?_, h2, h3⟩
  · show 1 ≤ (max 1 (clientCeiling configured)).toNat
    have hm : (1 : Int) ≤ max 1 (clientCeiling configured) := le_max_left _ _
    omega
  · intro hcfg
    show (max 1 (clientCeiling configured)).toNat = configured.toNat
    have hne : clientCeiling configured = configured := if_neg (by omega)
    rw [hne, max_eq_right hcfg]

/-- C6 witness: the demonstration trace against capacity 1 admits at most
one caller and resumes the two waiters in enqueue order. -/
theorem admission_gate_bound_and_fifo_witness :
    (gateRun (semInit (clientCeiling 1)) gateDemoEvents).active
        ≤ (semInit (clientCeiling 1)).counter
    ∧ (gateRun (semInit (clientCeiling 1)) gateDemoEvents).enqueued
        = (gateRun (semInit (clientCeiling 1)) gateDemoEvents).resumed
          ++ (gateRun (semInit (clientCeiling 1)) gateDemoEvents).queue :=
  ⟨(admission_gate_bound_and_fifo 1 gateDemoEvents (by decide)).1,
   (admission_gate_bound_and_fifo 1 gateDemoEvents (by decide)).2.2.2.1⟩

/-- C7: with the endpoint or the credential unset, generate fails with a
configuration error and performs no gate operation at all, so replaying
its footprint leaves any gate state unchanged; in every other case the
body runs inside exactly one acquire followed by one release, whatever
the body outcome (success, thrown error, or cancellation surfaced as an
error). -/
theorem generate_config_check_and_release (apiUrl apiKey : String)
    (body : Except CallError GenerateResult) :
    ((apiUrl = "" ∨ apiKey = "") →
      (∃ m, (generate apiUrl apiKey body).result = Except.error (CallError.config m))
      ∧ (generate apiUrl apiKey body).gateOps = []
      ∧ ∀ (s : GateState) (c : Nat),
          applyGateOps s c (generate apiUrl apiKey body).gateOps = s)
    ∧ (apiUrl ≠ "" → apiKey ≠ "" →
      (generate apiUrl apiKey body).result = body
      ∧ (generate apiUrl apiKey body).gateOps = [GateOp.acq, GateOp.rel]) := by
  constructor
  · intro h
    by_cases hu : apiUrl = ""
    · refine ⟨⟨"API URL is not configured (deepseekCSharp.assistant.apiUrl).", ?_⟩, ?_, ?_⟩
      · simp [generate, hu]
      · simp [generate, hu]
      · intro s c
        simp [generate, hu, applyGateOps]
    · have hk : apiKey = "" := by
        rcases h with h | h
        · exact absurd h hu
        · exact h
      refine ⟨⟨"API key is not configured (deepseekCSharp.assistant.apiKey).", ?_⟩, ?_, ?_⟩
      · simp [generate, hu, hk]
      · simp [generate, hu, hk]
      · intro s c
        simp [generate, hu, hk, applyGateOps]
  · intro h1 h2
    constructor <;> simp [generate, h1, h2]

/-- C7 witness: an unset endpoint performs no gate operation, while a
configured client wraps even a cancelled body in acquire then release. -/
theorem generate_config_check_and_release_witness :
    (generate "" "key" (Except.ok { content := "x", raw := "y" })).gateOps = []
    ∧ (generate "https://api" "key" (Except.error (CallError.other "cancelled"))).gateOps
        = [GateOp.acq, GateOp.rel] :=
  ⟨((generate_config_check_and_release "" "key"
      (Except.ok { content := "x", raw := "y" })).1 (Or.inl rfl)).2.1,
   ((generate_config_check_and_release "https://api" "key"
      (Except.error (CallError.other "cancelled"))).2 (by decide) (by decide)).2⟩

/-- C9 evaluated at the failing input: the unquoted branch of the
results-directory regex is a character class excluding a literal backslash
and the letter s rather than whitespace, so the repository's own default
command style has its path truncated at the first letter s, while the
double-quoted form and the absent-argument default behave as the claim
says. -/
theorem results_directory_regex_failing_input_eval :
    parseResultsDirectory "dotnet test --results-directory ./deepseek_test_results"
      = some "./deep"
    ∧ parseResultsDirectory "dotnet test --results-directory \"./deepseek_test_results\""
      = some "./deepseek_test_results"
    ∧ resultsDirOf "dotnet test" "/w" = "/w/deepseek_test_results" := by
  refine ⟨rfl, rfl, rfl⟩

/-- C10 counterexample: runTests performs a write to the results
directory, creating it with a recursive mkdir before spawning the
command. -/
theorem runTests_creates_results_directory :
    (runTestsOps "dotnet test" "/w" none zeroMtime).any FsOp.isWrite = true
    ∧ FsOp.mkdirRecursive "/w/deepseek_test_results"
        ∈ runTestsOps "dotnet test" "/w" none zeroMtime := by
  exact ⟨rfl, by decide⟩

/-- Stat operations are reads, so filtering a stat batch for writes gives
nothing. -/
theorem filter_isWrite_statMap (dir : String) (fs : List String) :
    ((fs.map (fun g => FsOp.statFile (dir ++ "/" ++ g))).filter FsOp.isWrite) = [] := by
  induction fs with
  | nil => rfl
  | cons g gs ih => simp [List.filter_cons, FsOp.isWrite, ih]

/-- C10 (amended): the only write operation in the filesystem footprint of
runTests is the recursive mkdir that creates the results directory itself;
artifacts are only listed, stat-ed and read, and no file is ever written
there by the pipeline. -/
theorem only_write_is_results_dir_mkdir (command cwd : String)
    (listing : Option (List String)) (mtime : String → Int) :
    (runTestsOps command cwd listing mtime).filter FsOp.isWrite
      = [FsOp.mkdirRecursive (resultsDirOf command cwd)] := by
  cases listing with
  | none =>
    simp [runTestsOps, findLatestTrxModel, List.filter_cons, FsOp.isWrite]
  | some files =>
    cases hf : files.filter (fun f => strEndsWith (jsToLower f) ".trx") with
    | nil =>
      simp [runTestsOps, findLatestTrxModel, hf, List.filter_cons, FsOp.isWrite]
    | cons f rest =>
      simp [runTestsOps, findLatestTrxModel, hf, List.filter_cons, List.filter_append,
        FsOp.isWrite, filter_isWrite_statMap]
